import Mathlib

/-!
Shallow embedding of the Underwater-AI backend core: the authenticated
job-orchestration layer (`detect_router.py`, `enhance_router.py`), the
credential/token manager (`auth_router.py`) and the streaming session handler
(`stream_router.py`), together with the persisted record shapes of
`result_model.py` and `user_model.py`.  The document store is modelled as
lists of records; `find_one` becomes `List.find?`.  Python float fields are
carried as rationals (they are only stored and echoed, never computed with).
External collaborators (the passlib/bcrypt primitive, `hashlib.sha256`, the
jose JWT codec, the compute dispatch and the per-frame processor) are
modelled as explicit parameters or outcome values attached to the inputs.
-/

namespace UnderwaterAI

/-- Equality of `Except` outcomes is decidable when both components are. -/
instance {ε α : Type} [DecidableEq ε] [DecidableEq α] : DecidableEq (Except ε α)
  | .error e₁, .error e₂ =>
    if h : e₁ = e₂ then .isTrue (by rw [h])
    else .isFalse (by intro hc; cases hc; exact h rfl)
  | .error _, .ok _ => .isFalse (by intro hc; cases hc)
  | .ok _, .error _ => .isFalse (by intro hc; cases hc)
  | .ok a₁, .ok a₂ =>
    if h : a₁ = a₂ then .isTrue (by rw [h])
    else .isFalse (by intro hc; cases hc; exact h rfl)

/-- A single detection result (`Detection` in `result_model.py`). -/
structure Detection where
  label : String
  confidence : Rat
  bbox : List Rat
  class_id : Option Int := none
deriving DecidableEq, Repr

/-- A persisted job document in the `results` collection.  Fields written by
`detect_threats` / `enhance_image` plus the fields `get_*_status` reads back;
every field a `dict.get` may miss is an `Option`. -/
structure JobRecord where
  job_id : String
  file_id : String
  user_id : Option String := none
  job_type : String
  status : Option String := none
  model_used : Option String := none
  error_message : Option String := none
  detections : Option (List Detection) := none
  annotated_file_path : Option String := none
  enhanced_file_path : Option String := none
  metrics : Option (List (String × Rat)) := none
deriving DecidableEq, Repr

/-- A persisted user document (`User` in `user_model.py`; `_id` is the
string rendering of the Mongo ObjectId). -/
structure UserRecord where
  _id : String
  username : String
  email : Option String := none
  hashed_password : String
  is_active : Bool := true
deriving DecidableEq, Repr

/-- A persisted file document; only `file_id` is consulted by this core. -/
structure FileRecord where
  file_id : String
deriving DecidableEq, Repr

/-- The document store: the three collections this core touches. -/
structure Db where
  users : List UserRecord := []
  files : List FileRecord := []
  results : List JobRecord := []
deriving DecidableEq, Repr

/-- Python's `str` applied to an optional string: `str(None) = "None"`,
as in `str(result.get("user_id"))`. -/
def pyStr (o : Option String) : String := o.getD "None"

/-- `db.results.find_one({"job_id": job_id})`. -/
def find_one_job (results : List JobRecord) (jid : String) : Option JobRecord :=
  results.find? (fun r => r.job_id == jid)

/-- `db.files.find_one({"file_id": file_id})`. -/
def find_one_file (files : List FileRecord) (fid : String) : Option FileRecord :=
  files.find? (fun f => f.file_id == fid)

/-- `db.users.find_one({"username": username})`. -/
def find_one_user (users : List UserRecord) (name : String) : Option UserRecord :=
  users.find? (fun u => u.username == name)

/-- `db.users.find_one({"_id": oid})`. -/
def find_one_user_by_id (users : List UserRecord) (oid : String) : Option UserRecord :=
  users.find? (fun u => u._id == oid)

/-- `HTTPException(status_code, detail)`. -/
structure HTTPError where
  status_code : Nat
  detail : String
deriving DecidableEq, Repr

/-- The kind-specific `result` payload of a `JobStatusResponse`. -/
inductive ResultPayload
  | detection (detections : List Detection) (annotated_file_path : Option String)
  | enhancement (enhanced_file_path : Option String) (metrics : Option (List (String × Rat)))
deriving DecidableEq, Repr

/-- `JobStatusResponse` as assembled by the status endpoints. -/
structure JobStatusResponse where
  job_id : String
  status : String
  result : Option ResultPayload
  error : Option String
deriving DecidableEq, Repr

/-- `get_detection_status` (`detect_router.py` lines 61-90): 404 when no job,
403 when the requester is not the stored owner, otherwise the status view;
`result` is filled only in the `completed` branch while `error` always echoes
the record's `error_message`. -/
def get_detection_status (db : Db) (job_id : String) (current_user_id : String) :
    Except HTTPError JobStatusResponse :=
  match find_one_job db.results job_id with
  | none => .error ⟨404, "Job not found"⟩
  | some r =>
    if pyStr r.user_id != current_user_id then
      .error ⟨403, "Access denied"⟩
    else
      let base : JobStatusResponse :=
        { job_id := job_id, status := r.status.getD "unknown",
          result := none, error := r.error_message }
      if r.status == some "completed" then
        .ok { base with
          result := some (.detection (r.detections.getD []) r.annotated_file_path) }
      else
        .ok base

/-- `get_enhancement_status` (`enhance_router.py` lines 62-90): identical
control flow with the enhancement payload. -/
def get_enhancement_status (db : Db) (job_id : String) (current_user_id : String) :
    Except HTTPError JobStatusResponse :=
  match find_one_job db.results job_id with
  | none => .error ⟨404, "Job not found"⟩
  | some r =>
    if pyStr r.user_id != current_user_id then
      .error ⟨403, "Access denied"⟩
    else
      let base : JobStatusResponse :=
        { job_id := job_id, status := r.status.getD "unknown",
          result := none, error := r.error_message }
      if r.status == some "completed" then
        .ok { base with
          result := some (.enhancement r.enhanced_file_path r.metrics) }
      else
        .ok base

/-- Response body of the job creation endpoints. -/
structure JobCreatedResponse where
  job_id : String
  status : String
  message : String
deriving DecidableEq, Repr

/-- One invocation of the external dispatch contract
`enqueue(job_id, file_id, method)`. -/
structure EnqueueCall where
  job_id : String
  file_id : String
  method : String
deriving DecidableEq, Repr

/-- Outcome of a route handler: a response, an `HTTPException`, or an
exception that escapes the handler (the framework turns it into a 5xx). -/
inductive HandlerResult (α : Type)
  | ok (resp : α)
  | httpError (e : HTTPError)
  | uncaught (msg : String)
deriving DecidableEq, Repr

/-- `detect_threats` (`detect_router.py` lines 16-58).  `new_job_id` stands
for the generated `uuid4`; `enq` is the outcome the external
`enqueue_detection` collaborator would produce for this call.  Returns the
store after the call, the dispatch calls made, and the handler outcome. -/
def detect_threats (db : Db) (file_id model : String) (current_user_id : String)
    (new_job_id : String) (enq : Except String Unit) :
    Db × List EnqueueCall × HandlerResult JobCreatedResponse :=
  match find_one_file db.files file_id with
  | none => (db, [], .httpError ⟨404, "File not found"⟩)
  | some _ =>
    let result_doc : JobRecord :=
      { job_id := new_job_id, file_id := file_id,
        user_id := some current_user_id, job_type := "detection",
        status := some "pending", model_used := some model }
    let db2 : Db := { db with results := db.results ++ [result_doc] }
    match enq with
    | .error msg => (db2, [⟨new_job_id, file_id, model⟩], .uncaught msg)
    | .ok _ =>
      (db2, [⟨new_job_id, file_id, model⟩],
        .ok ⟨new_job_id, "pending", "Detection job queued"⟩)

/-- `enhance_image` (`enhance_router.py` lines 16-59): same flow with
`job_type = "enhancement"` and the enhancement dispatch. -/
def enhance_image (db : Db) (file_id method : String) (current_user_id : String)
    (new_job_id : String) (enq : Except String Unit) :
    Db × List EnqueueCall × HandlerResult JobCreatedResponse :=
  match find_one_file db.files file_id with
  | none => (db, [], .httpError ⟨404, "File not found"⟩)
  | some _ =>
    let result_doc : JobRecord :=
      { job_id := new_job_id, file_id := file_id,
        user_id := some current_user_id, job_type := "enhancement",
        status := some "pending", model_used := some method }
    let db2 : Db := { db with results := db.results ++ [result_doc] }
    match enq with
    | .error msg => (db2, [⟨new_job_id, file_id, method⟩], .uncaught msg)
    | .ok _ =>
      (db2, [⟨new_job_id, file_id, method⟩],
        .ok ⟨new_job_id, "pending", "Enhancement job queued"⟩)

/-- The cryptographic environment: the passlib/bcrypt primitive (which may
raise, modelled as `Except`) and the `hashlib.sha256(...).hexdigest()`
fallback digest, all external collaborators of `auth_router.py`. -/
structure CryptoEnv where
  bcryptHash : String → Except Unit String
  bcryptVerify : String → String → Except Unit Bool
  sha256Hex : String → String

/-- `verify_password` (`auth_router.py` lines 22-31): try the bcrypt
primitive; on any exception compare the stored digest with the plaintext's
SHA-256 hexdigest. -/
def verify_password (env : CryptoEnv) (plain_password hashed_password : String) : Bool :=
  match env.bcryptVerify plain_password hashed_password with
  | .ok b => b
  | .error _ => hashed_password == env.sha256Hex plain_password

/-- `get_password_hash` (`auth_router.py` lines 34-43): try the bcrypt
primitive; on any exception fall back to the SHA-256 hexdigest. -/
def get_password_hash (env : CryptoEnv) (password : String) : String :=
  match env.bcryptHash password with
  | .ok digest => digest
  | .error _ => env.sha256Hex password

/-- The decoded claims of a JWT; only `sub` is consulted
(`payload.get("sub")`). -/
structure TokenPayload where
  sub : Option String
deriving DecidableEq, Repr

/-- A bearer token as seen by the server: either structurally corrupt, or a
signed envelope with a signature that does or does not verify under the
server's secret, a payload, and an absolute expiry instant. -/
inductive TokenShape
  | corrupt
  | signed (payload : TokenPayload) (goodSig : Bool) (exp : Nat)
deriving DecidableEq, Repr

/-- The jose `jwt.decode(token, secret, algorithms)` collaborator: raises
`JWTError` on structural corruption, signature mismatch or expiry, and
returns the claims otherwise. -/
def jwt_decode (t : TokenShape) (now : Nat) : Except Unit TokenPayload :=
  match t with
  | .corrupt => .error ()
  | .signed payload goodSig exp =>
    if goodSig && decide (now < exp) then .ok payload else .error ()

/-- `create_access_token` (`auth_router.py` lines 46-55): sign the claims
(so the signature verifies under the server's secret) with
`exp = now + ttl`. -/
def create_access_token (sub : String) (now ttl : Nat) : TokenShape :=
  .signed ⟨some sub⟩ true (now + ttl)

/-- The uniform `credentials_exception` of `get_current_user`. -/
def credentials_exception : HTTPError := ⟨401, "Could not validate credentials"⟩

/-- `get_current_user` (`auth_router.py` lines 58-77): decode the token
(raising the uniform 401 on any `JWTError` or a missing `sub`), then resolve
the subject to a stored account, again raising the uniform 401 when absent. -/
def get_current_user (db : Db) (t : TokenShape) (now : Nat) :
    Except HTTPError UserRecord :=
  match jwt_decode t now with
  | .error _ => .error credentials_exception
  | .ok payload =>
    match payload.sub with
    | none => .error credentials_exception
    | some username =>
      match find_one_user db.users username with
      | none => .error credentials_exception
      | some user => .ok user

/-- The `/auth/login` response body (`Token` schema). -/
structure TokenResponse where
  access_token : TokenShape
  token_type : String
deriving DecidableEq, Repr

/-- The demo account document `login` inserts for the reserved
`admin`/`admin123` pair (`user_doc` in `auth_router.py`, with the hash the
manager produced for `"admin123"`). -/
def provisioned_admin (env : CryptoEnv) (new_id : String) : UserRecord :=
  { _id := new_id, username := "admin", email := some "admin@example.com",
    hashed_password := get_password_hash env "admin123", is_active := true }

/-- The user-resolution phase of `login` (`auth_router.py` lines 89-118):
look the username up; when absent, the reserved `admin`/`admin123` pair
provisions the demo account (which is then re-read by `_id`), any other
credentials get the uniform 401. -/
def login_resolve (db : Db) (username password : String) (env : CryptoEnv)
    (new_id : String) : Db × Except HTTPError UserRecord :=
  match find_one_user db.users username with
  | some user => (db, .ok user)
  | none =>
    if username == "admin" && password == "admin123" then
      let db2 : Db := { db with users := db.users ++ [provisioned_admin env new_id] }
      match find_one_user_by_id db2.users new_id with
      | some user => (db2, .ok user)
      | none => (db2, .error ⟨500, "Failed to create user"⟩)
    else
      (db, .error ⟨401, "Incorrect username or password"⟩)

/-- `login` (`auth_router.py` lines 80-131).  `new_id` stands for the
ObjectId Mongo would assign on insert.  After resolving (or provisioning)
the account, the password is checked against the stored digest — the
uniform 401 again on mismatch — and a bearer token is issued. -/
def login (db : Db) (username password : String) (env : CryptoEnv)
    (new_id : String) (now ttl : Nat) : Db × Except HTTPError TokenResponse :=
  match login_resolve db username password env new_id with
  | (db2, .error e) => (db2, .error e)
  | (db2, .ok user) =>
    if verify_password env password user.hashed_password then
      (db2, .ok ⟨create_access_token user.username now ttl, "bearer"⟩)
    else
      (db2, .error ⟨401, "Incorrect username or password"⟩)

/-- The value returned by the external `process_frame_stream` collaborator,
a dict read back with `.get`. -/
structure FrameResult where
  enhanced_frame : Option String := none
  detections : Option (List Detection) := none
  metrics : Option (List (String × Rat)) := none
deriving DecidableEq, Repr

/-- One inbound websocket text message: either text `json.loads` rejects, or
a parsed JSON object carrying an optional `frame`, an optional `frame_id`,
and the outcome the external per-frame processor would produce for it. -/
inductive Inbound
  | malformed
  | frameMsg (frame : Option String) (frame_id : Option String)
      (outcome : Except String FrameResult)

/-- One outbound websocket JSON message. -/
inductive Outbound
  | errorMsg (error : String) (frame_id : String)
  | resultMsg (frame_id : String) (enhanced_frame : Option String)
      (detections : List Detection) (metrics : Option (List (String × Rat)))
deriving DecidableEq, Repr

/-- The correlation id carried by an outbound message. -/
def Outbound.fid : Outbound → String
  | .errorMsg _ f => f
  | .resultMsg f _ _ _ => f

/-- Whether an inbound message parses as JSON. -/
def Inbound.isFrameMsg : Inbound → Bool
  | .malformed => false
  | .frameMsg _ _ _ => true

/-- The `frame_id` key of a parsed inbound message, when present. -/
def Inbound.inFrameId : Inbound → Option String
  | .malformed => none
  | .frameMsg _ f _ => f

/-- Whether a parsed inbound message carries a truthy `frame` payload
(Python's `if not frame_base64` treats a missing key and `""` alike). -/
def Inbound.hasFramePayload : Inbound → Bool
  | .malformed => false
  | .frameMsg f _ _ => !((f.getD "") == "")

/-- `websocket_stream` (`stream_router.py` lines 13-78) applied to the
messages a client sends before disconnecting.  Returns the outbound messages
in emission order and whether the handler itself closed the socket (the
outer `except Exception` path; a client disconnect after the last message is
the graceful `WebSocketDisconnect` path).  A message `json.loads` rejects
escapes the loop: nothing is sent for it, the rest of the input is never
read, and the handler closes the connection. -/
def websocket_stream : List Inbound → List Outbound × Bool
  | [] => ([], false)
  | .malformed :: _ => ([], true)
  | .frameMsg frame fid outcome :: rest =>
    let frame_id := fid.getD "unknown"
    let out : Outbound :=
      if (frame.getD "") == "" then
        .errorMsg "No frame data provided" frame_id
      else
        match outcome with
        | .ok r => .resultMsg frame_id r.enhanced_frame (r.detections.getD []) r.metrics
        | .error e => .errorMsg e frame_id
    let res := websocket_stream rest
    (out :: res.1, res.2)

/-! Concrete fixtures used to evaluate the definitions at explicit inputs. -/

/-- A pending job that nevertheless carries a stored `error_message`. -/
def exJobPending : JobRecord :=
  { job_id := "j1", file_id := "f1", user_id := some "u1",
    job_type := "detection", status := some "pending",
    model_used := some "yolov8", error_message := some "boom" }

/-- A persisted job document with no `status` field at all. -/
def exJobNoStatus : JobRecord :=
  { job_id := "j2", file_id := "f1", user_id := some "u1",
    job_type := "detection" }

/-- A store holding the two jobs above and one file. -/
def exDb : Db :=
  { users := [⟨"uid1", "alice", none, "$2b$pw", true⟩],
    files := [⟨"f1"⟩],
    results := [exJobPending, exJobNoStatus] }

/-- A crypto environment whose bcrypt primitive works: digests are tagged
with a bcrypt-style marker, verification succeeds exactly on the matching
digest and raises on unrecognised digest formats. -/
def exEnvOk : CryptoEnv :=
  { bcryptHash := fun p => .ok ("$2b$" ++ p),
    bcryptVerify := fun p d =>
      if d == "$2b$" ++ p then .ok true
      else if d.startsWith "$2b$" then .ok false
      else .error (),
    sha256Hex := fun p => "sha256:" ++ p }

/-- A crypto environment whose bcrypt primitive always raises, forcing the
SHA-256 fallback on both hashing and verification. -/
def exEnvFb : CryptoEnv :=
  { bcryptHash := fun _ => .error (),
    bcryptVerify := fun _ _ => .error (),
    sha256Hex := fun p => "sha256:" ++ p }

/-- A concrete inbound streaming trace: a message with no `frame` key, a
frame the processor handles, and a frame the processor rejects. -/
def exMsgs : List Inbound :=
  [ .frameMsg none (some "f1") (.ok {}),
    .frameMsg (some "YWJj") (some "f2") (.ok ⟨some "ZW5o", some [], none⟩),
    .frameMsg (some "eHl6") none (.error "decode failure") ]

/-! Claim theorems. -/

/-- C1, as stated, is false: a status view returned for a job whose status
is `pending` (not `failed`) carries a non-null `error`, because the endpoint
echoes the record's `error_message` unconditionally. -/
theorem C1_counterexample :
    ∃ view, get_detection_status exDb "j1" "u1" = Except.ok view ∧
      view.status ≠ "failed" ∧ view.error ≠ none := by
  refine ⟨⟨"j1", "pending", none, some "boom"⟩, by decide, by decide, by decide⟩

/-- C1 amended: for every owner-visible status view (detection or
enhancement), `result` is null whenever the status is not `completed`, and
`error` equals the record's stored `error_message` regardless of status —
so `error` is null exactly when the record carries no `error_message`, not
whenever the status differs from `failed`. -/
theorem C1_amended_result_error_fields (db : Db) (jid uid : String) (r : JobRecord)
    (hfind : find_one_job db.results jid = some r) :
    (∀ view, get_detection_status db jid uid = Except.ok view →
      (view.status ≠ "completed" → view.result = none) ∧ view.error = r.error_message) ∧
    (∀ view, get_enhancement_status db jid uid = Except.ok view →
      (view.status ≠ "completed" → view.result = none) ∧ view.error = r.error_message) := by
  constructor
  · intro view hview
    simp only [get_detection_status, hfind] at hview
    split at hview
    · exact absurd hview (by simp)
    · split at hview
      · cases hview
        rename_i hst
        have hst' : r.status = some "completed" := beq_iff_eq.mp hst
        exact ⟨fun hne => absurd (by simp [hst']) hne, rfl⟩
      · cases hview
        exact ⟨fun _ => rfl, rfl⟩
  · intro view hview
    simp only [get_enhancement_status, hfind] at hview
    split at hview
    · exact absurd hview (by simp)
    · split at hview
      · cases hview
        rename_i hst
        have hst' : r.status = some "completed" := beq_iff_eq.mp hst
        exact ⟨fun hne => absurd (by simp [hst']) hne, rfl⟩
      · cases hview
        exact ⟨fun _ => rfl, rfl⟩

/-- Witness for the amended C1 at the concrete store: the view returned for
the pending job has a null `result` and echoes the stored `error_message`. -/
theorem C1_amended_witness :
    (⟨"j1", "pending", none, some "boom"⟩ : JobStatusResponse).result = none ∧
    (⟨"j1", "pending", none, some "boom"⟩ : JobStatusResponse).error
      = exJobPending.error_message := by
  have h := (C1_amended_result_error_fields exDb "j1" "u1" exJobPending (by decide)).1
    ⟨"j1", "pending", none, some "boom"⟩ (by decide)
  exact ⟨h.1 (by decide), h.2⟩

/-- C2: status polling (both kinds) fails with 404 when no job matches the
id, fails with 403 whenever the requester differs from the stored owner —
whatever the job's status — and a successful status view implies the
requester is the owner. -/
theorem C2_owner_only_access (db : Db) (jid a b : String) (r : JobRecord) :
    (find_one_job db.results jid = none →
      get_detection_status db jid b = Except.error ⟨404, "Job not found"⟩ ∧
      get_enhancement_status db jid b = Except.error ⟨404, "Job not found"⟩) ∧
    (find_one_job db.results jid = some r → pyStr r.user_id = a → b ≠ a →
      get_detection_status db jid b = Except.error ⟨403, "Access denied"⟩ ∧
      get_enhancement_status db jid b = Except.error ⟨403, "Access denied"⟩) ∧
    (find_one_job db.results jid = some r → pyStr r.user_id = a →
      (∀ view, get_detection_status db jid b = Except.ok view → b = a) ∧
      (∀ view, get_enhancement_status db jid b = Except.ok view → b = a)) := by
  refine ⟨?_, ?_, ?_⟩
  · intro hnone
    constructor
    · simp [get_detection_status, hnone]
    · simp [get_enhancement_status, hnone]
  · intro hfind howner hne
    have hbeq : (pyStr r.user_id != b) = true := by
      rw [howner]
      exact bne_iff_ne.mpr (Ne.symm hne)
    constructor
    · simp [get_detection_status, hfind, hbeq]
    · simp [get_enhancement_status, hfind, hbeq]
  · intro hfind howner
    constructor
    · intro view hview
      by_contra hne
      have hbeq : (pyStr r.user_id != b) = true := by
        rw [howner]
        exact bne_iff_ne.mpr (Ne.symm hne)
      simp [get_detection_status, hfind, hbeq] at hview
    · intro view hview
      by_contra hne
      have hbeq : (pyStr r.user_id != b) = true := by
        rw [howner]
        exact bne_iff_ne.mpr (Ne.symm hne)
      simp [get_enhancement_status, hfind, hbeq] at hview

/-- Witness for C2: 404 on an absent job id, 403 when a non-owner polls. -/
theorem C2_witness :
    get_detection_status exDb "missing" "u2" = Except.error ⟨404, "Job not found"⟩ ∧
    get_enhancement_status exDb "j1" "u2" = Except.error ⟨403, "Access denied"⟩ := by
  have h1 := (C2_owner_only_access exDb "missing" "u1" "u2" exJobPending).1 (by decide)
  have h2 := ((C2_owner_only_access exDb "j1" "u1" "u2" exJobPending).2.1)
    (by decide) (by decide) (by decide)
  exact ⟨h1.1, h2.2⟩

/-- C10: a persisted job with no `status` field does not make the owner's
status poll fail — the view carries the literal status `"unknown"` with a
null `result`. -/
theorem C10_missing_status_unknown (db : Db) (jid uid : String) (r : JobRecord)
    (hfind : find_one_job db.results jid = some r)
    (hst : r.status = none)
    (howner : pyStr r.user_id = uid) :
    get_detection_status db jid uid = Except.ok ⟨jid, "unknown", none, r.error_message⟩ ∧
    get_enhancement_status db jid uid = Except.ok ⟨jid, "unknown", none, r.error_message⟩ := by
  have hbeq : (pyStr r.user_id != uid) = false := by simp [howner]
  constructor
  · simp [get_detection_status, hfind, hbeq, hst]
  · simp [get_enhancement_status, hfind, hbeq, hst]

/-- Witness for C10 at the concrete store. -/
theorem C10_witness :
    get_detection_status exDb "j2" "u1" = Except.ok ⟨"j2", "unknown", none, none⟩ := by
  have h := C10_missing_status_unknown exDb "j2" "u1" exJobNoStatus
    (by decide) (by decide) (by decide)
  exact h.1

/-- C3: creating a job (detection or enhancement) against a `file_id` with
no matching file record fails with 404 "File not found", leaves the store
unchanged (no job record), and never invokes the dispatch contract. -/
theorem C3_unknown_file_404 (db : Db) (file_id model uid jid : String)
    (enq : Except String Unit)
    (hfile : find_one_file db.files file_id = none) :
    detect_threats db file_id model uid jid enq
      = (db, [], .httpError ⟨404, "File not found"⟩) ∧
    enhance_image db file_id model uid jid enq
      = (db, [], .httpError ⟨404, "File not found"⟩) := by
  constructor
  · simp [detect_threats, hfile]
  · simp [enhance_image, hfile]

/-- Witness for C3 at the concrete store. -/
theorem C3_witness :
    detect_threats exDb "nofile" "yolov8" "u1" "j9" (Except.ok ())
      = (exDb, [], .httpError ⟨404, "File not found"⟩) := by
  have h := C3_unknown_file_404 exDb "nofile" "yolov8" "u1" "j9" (Except.ok ()) (by decide)
  exact h.1

/-- C6: when the file exists and the external enqueue call fails after the
pending record was persisted, the handler outcome is the propagated dispatch
failure — never a success response. -/
theorem C6_dispatch_failure_surfaced (db : Db) (file_id model uid jid msg : String)
    (f : FileRecord)
    (hfile : find_one_file db.files file_id = some f) :
    (detect_threats db file_id model uid jid (.error msg)).2.2 = .uncaught msg ∧
    (∀ resp, (detect_threats db file_id model uid jid (.error msg)).2.2 ≠ .ok resp) ∧
    (enhance_image db file_id model uid jid (.error msg)).2.2 = .uncaught msg ∧
    (∀ resp, (enhance_image db file_id model uid jid (.error msg)).2.2 ≠ .ok resp) := by
  refine ⟨?_, ?_, ?_, ?_⟩
  · simp [detect_threats, hfile]
  · intro resp h
    simp [detect_threats, hfile] at h
  · simp [enhance_image, hfile]
  · intro resp h
    simp [enhance_image, hfile] at h

/-- Witness for C6 at the concrete store. -/
theorem C6_witness :
    (detect_threats exDb "f1" "yolov8" "u1" "j9" (.error "queue down")).2.2
      = .uncaught "queue down" := by
  have h := C6_dispatch_failure_surfaced exDb "f1" "yolov8" "u1" "j9" "queue down"
    ⟨"f1"⟩ (by decide)
  exact h.1

/-- Shared helper: under the passlib contract — verification succeeds on a
digest the primary primitive just produced, and raises (rather than
returning false) on a digest not in the primary format, such as the SHA-256
fallback hexdigest — the hash/verify round trip returns true. -/
theorem verify_round_trip (env : CryptoEnv) (p : String)
    (hrt : ∀ d, env.bcryptHash p = .ok d → env.bcryptVerify p d = .ok true)
    (hfb : ∀ e, env.bcryptHash p = .error e →
      ∃ e2, env.bcryptVerify p (env.sha256Hex p) = .error e2) :
    verify_password env p (get_password_hash env p) = true := by
  unfold verify_password get_password_hash
  cases hh : env.bcryptHash p with
  | ok d =>
    rw [hrt d hh]
  | error e =>
    obtain ⟨e2, h2⟩ := hfb e hh
    rw [h2]
    simp

/-- C8: for every password `p`, `verify_password p (hash_password p)`
returns true — both when the digest came from the primary bcrypt primitive
(its verify contract) and when it came from the SHA-256 fallback (the
primary verify raises on the unrecognised digest format and the fallback
comparison succeeds). -/
theorem C8_hash_verify_round_trip (env : CryptoEnv) (p : String)
    (hrt : ∀ d, env.bcryptHash p = .ok d → env.bcryptVerify p d = .ok true)
    (hfb : ∀ e, env.bcryptHash p = .error e →
      ∃ e2, env.bcryptVerify p (env.sha256Hex p) = .error e2) :
    verify_password env p (get_password_hash env p) = true :=
  verify_round_trip env p hrt hfb

/-- Witness for C8: the round trip at a concrete password under a working
bcrypt environment and under the always-raising fallback environment. -/
theorem C8_witness :
    verify_password exEnvOk "pw1" (get_password_hash exEnvOk "pw1") = true ∧
    verify_password exEnvFb "pw1" (get_password_hash exEnvFb "pw1") = true := by
  constructor
  · refine C8_hash_verify_round_trip exEnvOk "pw1" ?_ ?_
    · intro d hd
      simp [exEnvOk] at hd
      subst hd
      decide
    · intro e he
      simp [exEnvOk] at he
  · refine C8_hash_verify_round_trip exEnvFb "pw1" ?_ ?_
    · intro d hd
      simp [exEnvFb] at hd
    · intro e he
      exact ⟨(), rfl⟩

/-- C4: token validation succeeds and returns the subject's stored account
iff the token is a well-signed envelope whose expiry is in the future and
whose `sub` claim resolves to a stored account; every failing case returns
the one uniform `credentials_exception`. -/
theorem C4_token_validation (db : Db) (t : TokenShape) (now : Nat) :
    (∀ u, get_current_user db t now = Except.ok u ↔
      ∃ username exp, t = TokenShape.signed ⟨some username⟩ true exp ∧ now < exp ∧
        find_one_user db.users username = some u) ∧
    (∀ e, get_current_user db t now = Except.error e → e = credentials_exception) := by
  cases t with
  | corrupt =>
    constructor
    · intro u
      constructor
      · intro h
        simp [get_current_user, jwt_decode] at h
      · rintro ⟨username, exp, heq, -, -⟩
        cases heq
    · intro e he
      simp [get_current_user, jwt_decode] at he
      first
      | exact he
      | exact he.symm
  | signed payload goodSig exp =>
    obtain ⟨subOpt⟩ := payload
    by_cases hok : (goodSig && decide (now < exp)) = true
    · have hok2 : goodSig = true ∧ decide (now < exp) = true := by
        have h := hok
        rw [Bool.and_eq_true] at h
        exact h
      have hg : goodSig = true := hok2.1
      have hlt : now < exp := of_decide_eq_true hok2.2
      cases subOpt with
      | none =>
        constructor
        · intro u
          constructor
          · intro h
            simp [get_current_user, jwt_decode, hok] at h
          · rintro ⟨username, exp2, heq, -, -⟩
            simp at heq
        · intro e he
          simp [get_current_user, jwt_decode, hok] at he
          first
          | exact he
          | exact he.symm
      | some username =>
        cases hfind : find_one_user db.users username with
        | none =>
          constructor
          · intro u
            constructor
            · intro h
              simp [get_current_user, jwt_decode, hok, hfind] at h
            · rintro ⟨username2, exp2, heq, hlt2, hfind2⟩
              simp only [TokenShape.signed.injEq, TokenPayload.mk.injEq,
                Option.some.injEq] at heq
              obtain ⟨h1, -, -⟩ := heq
              rw [← h1] at hfind2
              rw [hfind] at hfind2
              cases hfind2
          · intro e he
            simp [get_current_user, jwt_decode, hok, hfind] at he
            first
            | exact he
            | exact he.symm
        | some u0 =>
          constructor
          · intro u
            constructor
            · intro h
              simp [get_current_user, jwt_decode, hok, hfind] at h
              exact ⟨username, exp, by rw [hg], hlt, by rw [hfind, h]⟩
            · rintro ⟨username2, exp2, heq, hlt2, hfind2⟩
              simp only [TokenShape.signed.injEq, TokenPayload.mk.injEq,
                Option.some.injEq] at heq
              obtain ⟨h1, -, -⟩ := heq
              rw [← h1] at hfind2
              rw [hfind] at hfind2
              cases hfind2
              simp [get_current_user, jwt_decode, hok, hfind]
          · intro e he
            simp [get_current_user, jwt_decode, hok, hfind] at he
    · constructor
      · intro u
        constructor
        · intro h
          simp [get_current_user, jwt_decode, hok] at h
        · rintro ⟨username2, exp2, heq, hlt2, -⟩
          simp only [TokenShape.signed.injEq, TokenPayload.mk.injEq] at heq
          obtain ⟨-, h2, h3⟩ := heq
          subst h2
          subst h3
          exact absurd (by simp [hlt2]) hok
      · intro e he
        simp [get_current_user, jwt_decode, hok] at he
        first
        | exact he
        | exact he.symm

/-- Witness for C4: a well-signed unexpired token whose subject is stored
resolves to that account. -/
theorem C4_witness :
    get_current_user exDb (TokenShape.signed ⟨some "alice"⟩ true 10) 5
      = Except.ok ⟨"uid1", "alice", none, "$2b$pw", true⟩ := by
  have h := (C4_token_validation exDb (TokenShape.signed ⟨some "alice"⟩ true 10) 5).1
    ⟨"uid1", "alice", none, "$2b$pw", true⟩
  exact h.mpr ⟨"alice", 10, rfl, by decide, by decide⟩

/-- Shared helper: appending a user whose username is not yet present makes
the username lookup find exactly the appended record. -/
theorem find_one_user_append_of_none (users : List UserRecord) (u : UserRecord)
    (h : find_one_user users u.username = none) :
    find_one_user (users ++ [u]) u.username = some u := by
  unfold find_one_user at h ⊢
  rw [List.find?_append, h]
  simp

/-- Shared helper: appending a user whose `_id` is not yet present makes
the `_id` lookup find exactly the appended record. -/
theorem find_one_user_by_id_append_of_none (users : List UserRecord) (u : UserRecord)
    (h : find_one_user_by_id users u._id = none) :
    find_one_user_by_id (users ++ [u]) u._id = some u := by
  unfold find_one_user_by_id at h ⊢
  rw [List.find?_append, h]
  simp

/-- C7: with no `admin` account stored, logging in with the reserved
`admin`/`admin123` pair provisions the account and returns a bearer token
that validates back to that account; a second identical login succeeds
leaving the store unchanged (no duplicate); a first login with any other
unknown username fails with the uniform 401 message and leaves the store
unchanged. -/
theorem C7_admin_bootstrap_login (db : Db) (env : CryptoEnv) (new_id new_id2 : String)
    (now now2 ttl : Nat)
    (hnoadmin : find_one_user db.users "admin" = none)
    (hfresh : find_one_user_by_id db.users new_id = none)
    (httl : 0 < ttl)
    (hrt : ∀ d, env.bcryptHash "admin123" = .ok d →
      env.bcryptVerify "admin123" d = .ok true)
    (hfb : ∀ e, env.bcryptHash "admin123" = .error e →
      ∃ e2, env.bcryptVerify "admin123" (env.sha256Hex "admin123") = .error e2) :
    login db "admin" "admin123" env new_id now ttl
      = ({ db with users := db.users ++ [provisioned_admin env new_id] },
         .ok ⟨create_access_token "admin" now ttl, "bearer"⟩) ∧
    get_current_user { db with users := db.users ++ [provisioned_admin env new_id] }
        (create_access_token "admin" now ttl) now
      = .ok (provisioned_admin env new_id) ∧
    login { db with users := db.users ++ [provisioned_admin env new_id] }
        "admin" "admin123" env new_id2 now2 ttl
      = ({ db with users := db.users ++ [provisioned_admin env new_id] },
         .ok ⟨create_access_token "admin" now2 ttl, "bearer"⟩) ∧
    (∀ u p, u ≠ "admin" → find_one_user db.users u = none →
      login db u p env new_id now ttl
        = (db, .error ⟨401, "Incorrect username or password"⟩)) := by
  have hid : (provisioned_admin env new_id)._id = new_id := rfl
  have hpa : (provisioned_admin env new_id).username = "admin" := rfl
  have hfind2 : find_one_user_by_id (db.users ++ [provisioned_admin env new_id]) new_id
      = some (provisioned_admin env new_id) := by
    have h := find_one_user_by_id_append_of_none db.users (provisioned_admin env new_id)
      (by rw [hid]; exact hfresh)
    rwa [hid] at h
  have hfindu : find_one_user (db.users ++ [provisioned_admin env new_id]) "admin"
      = some (provisioned_admin env new_id) := by
    have h := find_one_user_append_of_none db.users (provisioned_admin env new_id)
      (by rw [hpa]; exact hnoadmin)
    rwa [hpa] at h
  have hverify : verify_password env "admin123"
      (provisioned_admin env new_id).hashed_password = true :=
    verify_round_trip env "admin123" hrt hfb
  have hres1 : login_resolve db "admin" "admin123" env new_id
      = ({ db with users := db.users ++ [provisioned_admin env new_id] },
         .ok (provisioned_admin env new_id)) := by
    simp [login_resolve, hnoadmin, hfind2]
  have hres2 : login_resolve { db with users := db.users ++ [provisioned_admin env new_id] }
      "admin" "admin123" env new_id2
      = ({ db with users := db.users ++ [provisioned_admin env new_id] },
         .ok (provisioned_admin env new_id)) := by
    simp [login_resolve, hfindu]
  refine ⟨?_, ?_, ?_, ?_⟩
  · simp [login, hres1, hverify, hpa]
  · have hdec : jwt_decode (create_access_token "admin" now ttl) now
        = .ok ⟨some "admin"⟩ := by
      simp [jwt_decode, create_access_token, Nat.lt_add_of_pos_right httl]
    simp [get_current_user, hdec, hfindu]
  · simp [login, hres2, hverify, hpa]
  · intro u p hu hnone
    have hbu : (u == "admin") = false := beq_eq_false_iff_ne.mpr hu
    simp [login, login_resolve, hnone, hbu]

/-- Witness for C7: bootstrap login on an empty store with a working bcrypt
environment. -/
theorem C7_witness :
    login ({} : Db) "admin" "admin123" exEnvOk "oid1" 0 60
      = ({ users := [provisioned_admin exEnvOk "oid1"] },
         .ok ⟨create_access_token "admin" 0 60, "bearer"⟩) := by
  have h := C7_admin_bootstrap_login ({} : Db) exEnvOk "oid1" "oid2" 0 0 60
    (by rfl) (by rfl) (by decide)
    (by
      intro d hd
      simp [exEnvOk] at hd
      subst hd
      decide)
    (by
      intro e he
      simp [exEnvOk] at he)
  exact h.1

/-- C5: for a sequence of N parsed frame messages on one connection,
exactly N outbound messages are emitted, in arrival order, the i-th
carrying the i-th inbound message's `frame_id` (the literal `"unknown"`
standing in when none was sent); a message with no `frame` payload yields
the fixed error response, and the handler never closes the connection — so
it remains open for the subsequent messages, which are all processed. -/
theorem C5_stream_order_correlation (msgs : List Inbound)
    (h : ∀ m ∈ msgs, m.isFrameMsg = true) :
    (websocket_stream msgs).1.length = msgs.length ∧
    (websocket_stream msgs).2 = false ∧
    ∀ i (hi : i < msgs.length) (ho : i < (websocket_stream msgs).1.length),
      ((websocket_stream msgs).1.get ⟨i, ho⟩).fid
          = ((msgs.get ⟨i, hi⟩).inFrameId).getD "unknown" ∧
      ((msgs.get ⟨i, hi⟩).hasFramePayload = false →
        (websocket_stream msgs).1.get ⟨i, ho⟩
          = .errorMsg "No frame data provided"
              (((msgs.get ⟨i, hi⟩).inFrameId).getD "unknown")) := by
  induction msgs with
  | nil =>
    refine ⟨rfl, rfl, ?_⟩
    intro i hi ho
    exact absurd hi (by simp)
  | cons m rest ih =>
    have hm : m.isFrameMsg = true := h m (List.mem_cons_self m rest)
    obtain ⟨ih1, ih2, ih3⟩ := ih (fun x hx => h x (List.mem_cons_of_mem m hx))
    cases m with
    | malformed => simp [Inbound.isFrameMsg] at hm
    | frameMsg frame fid outcome =>
      refine ⟨?_, ?_, ?_⟩
      · simp [websocket_stream, ih1]
      · simp [websocket_stream, ih2]
      · intro i hi ho
        cases i with
        | zero =>
          constructor
          · simp only [websocket_stream, Inbound.inFrameId, List.get]
            by_cases hf : (frame.getD "") == ""
            · simp [hf, Outbound.fid]
            · cases outcome with
              | ok r => simp [hf, Outbound.fid]
              | error e => simp [hf, Outbound.fid]
          · intro hnf
            simp [Inbound.hasFramePayload] at hnf
            simp [websocket_stream, Inbound.inFrameId, hnf, List.get]
        | succ n =>
          have hi' : n < rest.length := by
            simpa using hi
          have ho' : n < (websocket_stream rest).1.length := by
            rw [ih1]
            exact hi'
          have hn := ih3 n hi' ho'
          simpa [websocket_stream] using hn

/-- Witness for C5: the concrete three-message trace is answered by three
in-order responses — the frameless message by the fixed error carrying its
`frame_id`, the processed frame by a result message, the failing frame by
its error with the default id — and the connection stays open. -/
theorem C5_witness :
    (websocket_stream exMsgs).1.length = exMsgs.length ∧
    (websocket_stream exMsgs).2 = false ∧
    (websocket_stream exMsgs).1
      = [.errorMsg "No frame data provided" "f1",
         .resultMsg "f2" (some "ZW5o") [] none,
         .errorMsg "decode failure" "unknown"] := by
  have h := C5_stream_order_correlation exMsgs (by
    intro m hm
    simp [exMsgs] at hm
    rcases hm with rfl | rfl | rfl <;> rfl)
  exact ⟨h.1, h.2.1, by decide⟩

/-- C9: a message `json.loads` rejects escapes the per-message error path —
the loop emits nothing for it (the outputs are exactly those of the
preceding well-formed messages, one each) and the handler closes the
connection, whereas a run of well-formed messages alone leaves it open. -/
theorem C9_malformed_json_closes (pre rest : List Inbound)
    (h : ∀ m ∈ pre, m.isFrameMsg = true) :
    (websocket_stream (pre ++ Inbound.malformed :: rest)).1
        = (websocket_stream pre).1 ∧
    (websocket_stream (pre ++ Inbound.malformed :: rest)).2 = true ∧
    (websocket_stream pre).2 = false ∧
    (websocket_stream pre).1.length = pre.length := by
  induction pre with
  | nil => exact ⟨rfl, rfl, rfl, rfl⟩
  | cons m p ih =>
    have hm : m.isFrameMsg = true := h m (List.mem_cons_self m p)
    obtain ⟨ih1, ih2, ih3, ih4⟩ := ih (fun x hx => h x (List.mem_cons_of_mem m hx))
    cases m with
    | malformed => simp [Inbound.isFrameMsg] at hm
    | frameMsg frame fid outcome =>
      refine ⟨?_, ?_, ?_, ?_⟩
      · simp [websocket_stream, ih1]
      · simp [websocket_stream, ih2]
      · simp [websocket_stream, ih3]
      · simp [websocket_stream, ih4]

/-- Witness for C9: inserting a malformed message after the concrete trace
drops the response for it and everything after it, and closes the
connection. -/
theorem C9_witness :
    (websocket_stream
        (exMsgs ++ Inbound.malformed
          :: [Inbound.frameMsg (some "zzz") (some "f9") (.ok {})])).1
      = (websocket_stream exMsgs).1 ∧
    (websocket_stream
        (exMsgs ++ Inbound.malformed
          :: [Inbound.frameMsg (some "zzz") (some "f9") (.ok {})])).2 = true := by
  have h := C9_malformed_json_closes exMsgs
    [Inbound.frameMsg (some "zzz") (some "f9") (.ok {})] (by
      intro m hm
      simp [exMsgs] at hm
      rcases hm with rfl | rfl | rfl <;> rfl)
  exact ⟨h.1, h.2.1⟩

end UnderwaterAI
